import Mathlib

/-!
Shallow embedding of `sage/modular/modform/ambient_g1.py`: ambient spaces of
modular forms for `GammaH(N)` and `Gamma1(N)` over `QQ`.  The file under
verification is a dispatch and composition layer: it selects cuspidal and
Eisenstein submodule implementations by case on level and weight, and combines
the two submodules' operator matrices by block sum.  The submodule classes,
the matrix `block_sum` method, the `cached_method` decorator and the dimension
methods live in the surrounding library, outside the file; they are either
taken as parameters (environments of delegated behaviour) or modelled from the
specification where the spec pins their meaning down.
-/

namespace AmbientG1

/-- Congruence subgroup descriptors as this layer sees them: `GammaH(N)` with a
list of generators for `H`, and `Gamma1(N)`. -/
inductive CongruenceSubgroup where
  | gammaH : ℕ → List ℕ → CongruenceSubgroup
  | gamma1 : ℕ → CongruenceSubgroup
  deriving DecidableEq, Repr

/-- The level `N` of a congruence subgroup descriptor. -/
def CongruenceSubgroup.level : CongruenceSubgroup → ℕ
  | .gammaH n _ => n
  | .gamma1 n => n

/-- Embeds `arithgroup.Gamma1(level)`: wraps an integer level as the
`Gamma1(level)` congruence subgroup. -/
def Gamma1 (level : ℕ) : CongruenceSubgroup :=
  CongruenceSubgroup.gamma1 level

/-- The two Python ambient-space classes in the file:
`ModularFormsAmbient_gH_Q` and its subclass `ModularFormsAmbient_g1_Q`. -/
inductive AmbientClass where
  | gH_Q
  | g1_Q
  deriving DecidableEq, Repr

/-- The state set by the base constructor `ambient.ModularFormsAmbient.__init__`
on the instance: group, weight and the eis_only flag.  The base field is `QQ`
in every call in this file and is therefore omitted. -/
structure AmbientState where
  group : CongruenceSubgroup
  weight : ℕ
  eis_only : Bool
  deriving DecidableEq, Repr

/-- Embeds `ambient.ModularFormsAmbient.__init__(self, group, weight, QQ,
eis_only=eis_only)`: records the base-layer state. -/
def ModularFormsAmbient_init (group : CongruenceSubgroup) (weight : ℕ)
    (eis_only : Bool) : AmbientState :=
  { group := group, weight := weight, eis_only := eis_only }

/-- An ambient-space instance: its dynamic Python class together with the state
installed by the base constructor. -/
structure AmbientSpace where
  cls : AmbientClass
  state : AmbientState
  deriving DecidableEq, Repr

/-- `self.level()`: the level of the instance's congruence subgroup. -/
def AmbientSpace.level (M : AmbientSpace) : ℕ :=
  M.state.group.level

/-- `self.weight()`: the weight of the space. -/
def AmbientSpace.weight (M : AmbientSpace) : ℕ :=
  M.state.weight

/-- Embeds `ModularFormsAmbient_gH_Q.__init__(self, group, weight, eis_only)`:
calls the base constructor with the given group, weight, `QQ` and flag. -/
def ModularFormsAmbient_gH_Q_init (group : CongruenceSubgroup) (weight : ℕ)
    (eis_only : Bool) : AmbientSpace :=
  { cls := AmbientClass.gH_Q
    state := ModularFormsAmbient_init group weight eis_only }

/-- Embeds `ModularFormsAmbient_g1_Q.__init__(self, level, weight, eis_only)`:
calls the base constructor `ambient.ModularFormsAmbient.__init__` directly with
`arithgroup.Gamma1(level)`, the same weight, `QQ` and the same flag. -/
def ModularFormsAmbient_g1_Q_init (level : ℕ) (weight : ℕ)
    (eis_only : Bool) : AmbientSpace :=
  { cls := AmbientClass.g1_Q
    state := ModularFormsAmbient_init (Gamma1 level) weight eis_only }

/-- The cuspidal-submodule implementation classes this file instantiates:
`CuspidalSubmodule_level1_Q`, `CuspidalSubmodule_wt1_gH`,
`CuspidalSubmodule_gH_Q` and `CuspidalSubmodule_g1_Q`. -/
inductive CuspidalClass where
  | level1_Q
  | wt1_gH
  | gH_Q
  | g1_Q
  deriving DecidableEq, Repr

/-- A cuspidal submodule object: the implementation class that was instantiated
and the ambient space `self` it was constructed from. -/
structure CuspidalSubmodule where
  cls : CuspidalClass
  ambient : AmbientSpace
  deriving DecidableEq, Repr

/-- The Eisenstein-submodule implementation classes this file instantiates:
`EisensteinSubmodule_gH_Q` and `EisensteinSubmodule_g1_Q`. -/
inductive EisensteinClass where
  | gH_Q
  | g1_Q
  deriving DecidableEq, Repr

/-- An Eisenstein submodule object: the implementation class that was
instantiated and the ambient space `self` it was constructed from. -/
structure EisensteinSubmodule where
  cls : EisensteinClass
  ambient : AmbientSpace
  deriving DecidableEq, Repr

/-- Embeds the body of `ModularFormsAmbient_gH_Q.cuspidal_submodule`:
level 1 selects `CuspidalSubmodule_level1_Q`, else weight 1 selects
`CuspidalSubmodule_wt1_gH`, else `CuspidalSubmodule_gH_Q`. -/
def gH_cuspidal_submodule (M : AmbientSpace) : CuspidalSubmodule :=
  if M.level = 1 then { cls := CuspidalClass.level1_Q, ambient := M }
  else if M.weight = 1 then { cls := CuspidalClass.wt1_gH, ambient := M }
  else { cls := CuspidalClass.gH_Q, ambient := M }

/-- Embeds the body of `ModularFormsAmbient_g1_Q.cuspidal_submodule`:
level 1 selects `CuspidalSubmodule_level1_Q`, else weight 1 selects
`CuspidalSubmodule_wt1_gH`, else `CuspidalSubmodule_g1_Q`. -/
def g1_cuspidal_submodule (M : AmbientSpace) : CuspidalSubmodule :=
  if M.level = 1 then { cls := CuspidalClass.level1_Q, ambient := M }
  else if M.weight = 1 then { cls := CuspidalClass.wt1_gH, ambient := M }
  else { cls := CuspidalClass.g1_Q, ambient := M }

/-- Embeds the body of `ModularFormsAmbient_gH_Q.eisenstein_submodule`:
always instantiates `EisensteinSubmodule_gH_Q`. -/
def gH_eisenstein_submodule (M : AmbientSpace) : EisensteinSubmodule :=
  { cls := EisensteinClass.gH_Q, ambient := M }

/-- Embeds the body of `ModularFormsAmbient_g1_Q.eisenstein_submodule`:
always instantiates `EisensteinSubmodule_g1_Q`. -/
def g1_eisenstein_submodule (M : AmbientSpace) : EisensteinSubmodule :=
  { cls := EisensteinClass.g1_Q, ambient := M }

/-- Python method resolution for `self.cuspidal_submodule()`: the Gamma1 class
overrides the method, so a `g1_Q` instance runs the `g1` body and a `gH_Q`
instance runs the `gH` body. -/
def cuspidal_submodule (M : AmbientSpace) : CuspidalSubmodule :=
  match M.cls with
  | AmbientClass.gH_Q => gH_cuspidal_submodule M
  | AmbientClass.g1_Q => g1_cuspidal_submodule M

/-- Python method resolution for `self.eisenstein_submodule()`: the Gamma1
class overrides the method, so a `g1_Q` instance runs the `g1` body and a
`gH_Q` instance runs the `gH` body. -/
def eisenstein_submodule (M : AmbientSpace) : EisensteinSubmodule :=
  match M.cls with
  | AmbientClass.gH_Q => gH_eisenstein_submodule M
  | AmbientClass.g1_Q => g1_eisenstein_submodule M

/-- A square rational matrix with an explicit size; entries are read through a
total function, and only indices below `size` are meaningful. -/
structure QMatrix where
  size : ℕ
  entry : ℕ → ℕ → ℚ

/-- Modelled from the spec: the sage matrix method `block_sum` (library code
outside src).  Per the spec, it forms the block-diagonal matrix with the left
operand in the top-left block, the right operand in the bottom-right block, and
all off-diagonal blocks zero, the left block coming first in the index order. -/
def QMatrix.block_sum (A B : QMatrix) : QMatrix where
  size := A.size + B.size
  entry := fun i j =>
    if i < A.size then
      (if j < A.size then A.entry i j else 0)
    else
      (if j < A.size then 0 else B.entry (i - A.size) (j - A.size))

/-- The delegated submodule operator-matrix methods `diamond_bracket_matrix`
and `hecke_matrix` (library code outside src); the ambient layer is parametric
in their behaviour. -/
structure OperatorEnv where
  cusp_diamond : CuspidalSubmodule → ℤ → QMatrix
  eis_diamond : EisensteinSubmodule → ℤ → QMatrix
  cusp_hecke : CuspidalSubmodule → ℕ → QMatrix
  eis_hecke : EisensteinSubmodule → ℕ → QMatrix

/-- Embeds the body of `ModularFormsAmbient_gH_Q._compute_diamond_matrix(d)`:
`self.cuspidal_submodule().diamond_bracket_matrix(d).block_sum(
self.eisenstein_submodule().diamond_bracket_matrix(d))`. -/
def compute_diamond_matrix (env : OperatorEnv) (M : AmbientSpace)
    (d : ℤ) : QMatrix :=
  (env.cusp_diamond (cuspidal_submodule M) d).block_sum
    (env.eis_diamond (eisenstein_submodule M) d)

/-- Embeds the body of `ModularFormsAmbient_gH_Q._compute_hecke_matrix(n)`:
`self.cuspidal_submodule().hecke_matrix(n).block_sum(
self.eisenstein_submodule().hecke_matrix(n))`. -/
def compute_hecke_matrix (env : OperatorEnv) (M : AmbientSpace)
    (n : ℕ) : QMatrix :=
  (env.cusp_hecke (cuspidal_submodule M) n).block_sum
    (env.eis_hecke (eisenstein_submodule M) n)

/-- Python method resolution for `self._compute_diamond_matrix(d)`: the method
is defined on `ModularFormsAmbient_gH_Q` only; `ModularFormsAmbient_g1_Q` does
not override it, so both classes resolve to the same `gH` body. -/
def dispatch_compute_diamond_matrix (env : OperatorEnv) (M : AmbientSpace)
    (d : ℤ) : QMatrix :=
  match M.cls with
  | AmbientClass.gH_Q => compute_diamond_matrix env M d
  | AmbientClass.g1_Q => compute_diamond_matrix env M d

/-- Python method resolution for `self._compute_hecke_matrix(n)`: the method
is defined on `ModularFormsAmbient_gH_Q` only; `ModularFormsAmbient_g1_Q` does
not override it, so both classes resolve to the same `gH` body. -/
def dispatch_compute_hecke_matrix (env : OperatorEnv) (M : AmbientSpace)
    (n : ℕ) : QMatrix :=
  match M.cls with
  | AmbientClass.gH_Q => compute_hecke_matrix env M n
  | AmbientClass.g1_Q => compute_hecke_matrix env M n

/-- The delegated dimension methods of the submodule implementations (library
code outside src); the ambient layer is parametric in them. -/
structure DimensionEnv where
  cusp_dimension : CuspidalSubmodule → ℕ
  eis_dimension : EisensteinSubmodule → ℕ

/-- Modelled from the spec: `M.dimension()` for an ambient space (the
dimension method lives outside src).  The spec declares the cuspidal and
Eisenstein submodules to be complementary subspaces whose direct sum is the
ambient space, with the ambient basis ordered cuspidal vectors first, then
Eisenstein; hence the ambient dimension is the sum of the two submodule
dimensions. -/
def ambient_dimension (denv : DimensionEnv) (M : AmbientSpace) : ℕ :=
  denv.cusp_dimension (cuspidal_submodule M)
    + denv.eis_dimension (eisenstein_submodule M)

/-- Modelled from the spec: `sage.misc.cachefunc.cached_method` (library code
outside src) — a one-shot memo cell per method on the instance, written on
first call and read, never invalidated, on every later call.  The cache cells
of the two decorated methods of an ambient-space instance. -/
structure AmbientCache where
  cusp : Option CuspidalSubmodule
  eis : Option EisensteinSubmodule
  deriving DecidableEq, Repr

/-- A call to the cached `self.cuspidal_submodule()`: return the cell's
content if present, otherwise run the method body, store the result and
return it. -/
def cuspidal_submodule_cached (M : AmbientSpace) (c : AmbientCache) :
    CuspidalSubmodule × AmbientCache :=
  match c.cusp with
  | some S => (S, c)
  | none =>
    let S := cuspidal_submodule M
    (S, { c with cusp := some S })

/-- A call to the cached `self.eisenstein_submodule()`: return the cell's
content if present, otherwise run the method body, store the result and
return it. -/
def eisenstein_submodule_cached (M : AmbientSpace) (c : AmbientCache) :
    EisensteinSubmodule × AmbientCache :=
  match c.eis with
  | some E => (E, c)
  | none =>
    let E := eisenstein_submodule M
    (E, { c with eis := some E })

/-- Fallible versions of the delegated library calls: the external submodule
class constructors and their operator-matrix methods may raise; raised errors
are carried as `Except` values of an arbitrary error type. -/
structure FallibleEnv (ε : Type) where
  mk_cusp : CuspidalClass → AmbientSpace → Except ε CuspidalSubmodule
  mk_eis : EisensteinClass → AmbientSpace → Except ε EisensteinSubmodule
  cusp_diamond : CuspidalSubmodule → ℤ → Except ε QMatrix
  eis_diamond : EisensteinSubmodule → ℤ → Except ε QMatrix
  cusp_hecke : CuspidalSubmodule → ℕ → Except ε QMatrix
  eis_hecke : EisensteinSubmodule → ℕ → Except ε QMatrix

/-- Fallible embedding of `ModularFormsAmbient_gH_Q.cuspidal_submodule`: the
case dispatch of the source with the selected class constructor allowed to
raise; the body has no handler, so a raise propagates. -/
def gH_cuspidal_submoduleE {ε : Type} (fe : FallibleEnv ε)
    (M : AmbientSpace) : Except ε CuspidalSubmodule :=
  if M.level = 1 then fe.mk_cusp CuspidalClass.level1_Q M
  else if M.weight = 1 then fe.mk_cusp CuspidalClass.wt1_gH M
  else fe.mk_cusp CuspidalClass.gH_Q M

/-- Fallible embedding of `ModularFormsAmbient_g1_Q.cuspidal_submodule`. -/
def g1_cuspidal_submoduleE {ε : Type} (fe : FallibleEnv ε)
    (M : AmbientSpace) : Except ε CuspidalSubmodule :=
  if M.level = 1 then fe.mk_cusp CuspidalClass.level1_Q M
  else if M.weight = 1 then fe.mk_cusp CuspidalClass.wt1_gH M
  else fe.mk_cusp CuspidalClass.g1_Q M

/-- Fallible `self.cuspidal_submodule()` under Python method resolution. -/
def cuspidal_submoduleE {ε : Type} (fe : FallibleEnv ε)
    (M : AmbientSpace) : Except ε CuspidalSubmodule :=
  match M.cls with
  | AmbientClass.gH_Q => gH_cuspidal_submoduleE fe M
  | AmbientClass.g1_Q => g1_cuspidal_submoduleE fe M

/-- Fallible `self.eisenstein_submodule()` under Python method resolution. -/
def eisenstein_submoduleE {ε : Type} (fe : FallibleEnv ε)
    (M : AmbientSpace) : Except ε EisensteinSubmodule :=
  match M.cls with
  | AmbientClass.gH_Q => fe.mk_eis EisensteinClass.gH_Q M
  | AmbientClass.g1_Q => fe.mk_eis EisensteinClass.g1_Q M

/-- Fallible embedding of `_compute_diamond_matrix(d)`, in the evaluation
order of the source line: cuspidal submodule, its diamond matrix, Eisenstein
submodule, its diamond matrix, then `block_sum`; no step is guarded by a
handler, so the first raise propagates unchanged. -/
def compute_diamond_matrixE {ε : Type} (fe : FallibleEnv ε)
    (M : AmbientSpace) (d : ℤ) : Except ε QMatrix := do
  let S ← cuspidal_submoduleE fe M
  let A ← fe.cusp_diamond S d
  let E ← eisenstein_submoduleE fe M
  let B ← fe.eis_diamond E d
  return A.block_sum B

/-- Fallible embedding of `_compute_hecke_matrix(n)`, in the evaluation order
of the source line. -/
def compute_hecke_matrixE {ε : Type} (fe : FallibleEnv ε)
    (M : AmbientSpace) (n : ℕ) : Except ε QMatrix := do
  let S ← cuspidal_submoduleE fe M
  let A ← fe.cusp_hecke S n
  let E ← eisenstein_submoduleE fe M
  let B ← fe.eis_hecke E n
  return A.block_sum B

/-- Shorthand for `M.cuspidal_submodule().diamond_bracket_matrix(d)`. -/
def cusp_diamond_mat (env : OperatorEnv) (M : AmbientSpace) (d : ℤ) : QMatrix :=
  env.cusp_diamond (cuspidal_submodule M) d

/-- Shorthand for `M.eisenstein_submodule().diamond_bracket_matrix(d)`. -/
def eis_diamond_mat (env : OperatorEnv) (M : AmbientSpace) (d : ℤ) : QMatrix :=
  env.eis_diamond (eisenstein_submodule M) d

/-- Shorthand for `M.cuspidal_submodule().hecke_matrix(n)`. -/
def cusp_hecke_mat (env : OperatorEnv) (M : AmbientSpace) (n : ℕ) : QMatrix :=
  env.cusp_hecke (cuspidal_submodule M) n

/-- Shorthand for `M.eisenstein_submodule().hecke_matrix(n)`. -/
def eis_hecke_mat (env : OperatorEnv) (M : AmbientSpace) (n : ℕ) : QMatrix :=
  env.eis_hecke (eisenstein_submodule M) n

/-- Block structure of `block_sum`: size is the sum of the sizes, the top-left
block is the left operand, the bottom-right block is the right operand, and
both off-diagonal blocks vanish. -/
theorem block_sum_blocks (A B : QMatrix) (i j : ℕ) :
    (A.block_sum B).size = A.size + B.size
    ∧ (i < A.size → j < A.size → (A.block_sum B).entry i j = A.entry i j)
    ∧ (A.size ≤ i → A.size ≤ j →
        (A.block_sum B).entry i j = B.entry (i - A.size) (j - A.size))
    ∧ (i < A.size → A.size ≤ j → (A.block_sum B).entry i j = 0)
    ∧ (A.size ≤ i → j < A.size → (A.block_sum B).entry i j = 0) := by
  refine ⟨rfl, ?_, ?_, ?_, ?_⟩
  · intro h1 h2
    simp [QMatrix.block_sum, h1, h2]
  · intro h1 h2
    simp [QMatrix.block_sum, Nat.not_lt.mpr h1, Nat.not_lt.mpr h2]
  · intro h1 h2
    simp [QMatrix.block_sum, h1, Nat.not_lt.mpr h2]
  · intro h1 h2
    simp [QMatrix.block_sum, Nat.not_lt.mpr h1, h2]

/-- Fixture: the `GammaH(9, [4])` space of weight 7 from the doctests. -/
def MgH9 : AmbientSpace :=
  ModularFormsAmbient_gH_Q_init (CongruenceSubgroup.gammaH 9 [4]) 7 false

/-- Fixture: the `GammaH(100, [29])` space of weight 2 from the doctests. -/
def MgH100 : AmbientSpace :=
  ModularFormsAmbient_gH_Q_init (CongruenceSubgroup.gammaH 100 [29]) 2 false

/-- Fixture: the `Gamma1(17)` space of weight 2 from the doctests. -/
def Mg1_17 : AmbientSpace :=
  ModularFormsAmbient_g1_Q_init 17 2 false

/-- Fixture: a level-1 weight-1 `GammaH` space. -/
def MgH1 : AmbientSpace :=
  ModularFormsAmbient_gH_Q_init (CongruenceSubgroup.gammaH 1 []) 1 false

/-- Fixture: a level-5 weight-1 `GammaH` space. -/
def MgH5 : AmbientSpace :=
  ModularFormsAmbient_gH_Q_init (CongruenceSubgroup.gammaH 5 []) 1 false

/-- Fixture: a delegated-operator environment returning concrete 1x1
matrices. -/
def env0 : OperatorEnv where
  cusp_diamond := fun _ _ => { size := 1, entry := fun _ _ => 3 }
  eis_diamond := fun _ _ => { size := 1, entry := fun _ _ => 5 }
  cusp_hecke := fun _ _ => { size := 1, entry := fun _ _ => 7 }
  eis_hecke := fun _ _ => { size := 1, entry := fun _ _ => 9 }

/-- Fixture: a delegated-dimension environment with constant dimensions 1. -/
def denv0 : DimensionEnv where
  cusp_dimension := fun _ => 1
  eis_dimension := fun _ => 1

/-- C1: for every ambient space (either class), every unit `d` and every Hecke
index `n`, `_compute_diamond_matrix(d)` and `_compute_hecke_matrix(n)` return
the block-diagonal matrix whose top-left block is the cuspidal submodule's
operator matrix for that index, whose bottom-right block is the Eisenstein
submodule's operator matrix for that index, and whose off-diagonal blocks are
zero. -/
theorem compute_matrices_block_diagonal (env : OperatorEnv) (M : AmbientSpace)
    (d : ℤ) (n : ℕ) (i j : ℕ) :
    ((compute_diamond_matrix env M d).size
        = (cusp_diamond_mat env M d).size + (eis_diamond_mat env M d).size
      ∧ (i < (cusp_diamond_mat env M d).size →
          j < (cusp_diamond_mat env M d).size →
          (compute_diamond_matrix env M d).entry i j
            = (cusp_diamond_mat env M d).entry i j)
      ∧ ((cusp_diamond_mat env M d).size ≤ i →
          (cusp_diamond_mat env M d).size ≤ j →
          (compute_diamond_matrix env M d).entry i j
            = (eis_diamond_mat env M d).entry
                (i - (cusp_diamond_mat env M d).size)
                (j - (cusp_diamond_mat env M d).size))
      ∧ (i < (cusp_diamond_mat env M d).size →
          (cusp_diamond_mat env M d).size ≤ j →
          (compute_diamond_matrix env M d).entry i j = 0)
      ∧ ((cusp_diamond_mat env M d).size ≤ i →
          j < (cusp_diamond_mat env M d).size →
          (compute_diamond_matrix env M d).entry i j = 0))
    ∧ ((compute_hecke_matrix env M n).size
        = (cusp_hecke_mat env M n).size + (eis_hecke_mat env M n).size
      ∧ (i < (cusp_hecke_mat env M n).size →
          j < (cusp_hecke_mat env M n).size →
          (compute_hecke_matrix env M n).entry i j
            = (cusp_hecke_mat env M n).entry i j)
      ∧ ((cusp_hecke_mat env M n).size ≤ i →
          (cusp_hecke_mat env M n).size ≤ j →
          (compute_hecke_matrix env M n).entry i j
            = (eis_hecke_mat env M n).entry
                (i - (cusp_hecke_mat env M n).size)
                (j - (cusp_hecke_mat env M n).size))
      ∧ (i < (cusp_hecke_mat env M n).size →
          (cusp_hecke_mat env M n).size ≤ j →
          (compute_hecke_matrix env M n).entry i j = 0)
      ∧ ((cusp_hecke_mat env M n).size ≤ i →
          j < (cusp_hecke_mat env M n).size →
          (compute_hecke_matrix env M n).entry i j = 0)) :=
  ⟨block_sum_blocks (cusp_diamond_mat env M d) (eis_diamond_mat env M d) i j,
   block_sum_blocks (cusp_hecke_mat env M n) (eis_hecke_mat env M n) i j⟩

/-- Witness for C1 at a concrete environment, space and indices: the entry at
row 0, column 1 lies in the top-right off-diagonal block and is zero for both
operators. -/
theorem compute_matrices_block_diagonal_witness :
    (compute_diamond_matrix env0 MgH9 2).entry 0 1 = 0
    ∧ (compute_hecke_matrix env0 MgH9 3).entry 0 1 = 0 :=
  ⟨(compute_matrices_block_diagonal env0 MgH9 2 3 0 1).1.2.2.2.1
      (by decide) (by decide),
   (compute_matrices_block_diagonal env0 MgH9 2 3 0 1).2.2.2.2.1
      (by decide) (by decide)⟩

/-- C2: on every `GammaH` ambient space, `cuspidal_submodule()` selects its
implementation by case: level 1 gives `CuspidalSubmodule_level1_Q`, otherwise
weight 1 gives `CuspidalSubmodule_wt1_gH`, otherwise the generic
`CuspidalSubmodule_gH_Q`, in each case constructed from the space itself. -/
theorem gH_cuspidal_submodule_cases (M : AmbientSpace)
    (hM : M.cls = AmbientClass.gH_Q) :
    (M.level = 1 →
      cuspidal_submodule M = { cls := CuspidalClass.level1_Q, ambient := M })
    ∧ (M.level ≠ 1 → M.weight = 1 →
      cuspidal_submodule M = { cls := CuspidalClass.wt1_gH, ambient := M })
    ∧ (M.level ≠ 1 → M.weight ≠ 1 →
      cuspidal_submodule M = { cls := CuspidalClass.gH_Q, ambient := M }) := by
  refine ⟨?_, ?_, ?_⟩ <;> intros <;>
    simp [cuspidal_submodule, hM, gH_cuspidal_submodule, *]

/-- Witness for C2: `GammaH(100, [29])` at weight 2 has level 100 and weight 2,
so the generic `GammaH` cuspidal implementation is selected. -/
theorem gH_cuspidal_submodule_cases_witness :
    cuspidal_submodule MgH100
      = { cls := CuspidalClass.gH_Q, ambient := MgH100 } :=
  (gH_cuspidal_submodule_cases MgH100 rfl).2.2 (by decide) (by decide)

/-- C3: on every `Gamma1` ambient space, `cuspidal_submodule()` performs the
same case dispatch as the `GammaH` version, except that the generic branch
selects the `Gamma1`-specific `CuspidalSubmodule_g1_Q`. -/
theorem g1_cuspidal_submodule_cases (M : AmbientSpace)
    (hM : M.cls = AmbientClass.g1_Q) :
    (M.level = 1 →
      cuspidal_submodule M = { cls := CuspidalClass.level1_Q, ambient := M })
    ∧ (M.level ≠ 1 → M.weight = 1 →
      cuspidal_submodule M = { cls := CuspidalClass.wt1_gH, ambient := M })
    ∧ (M.level ≠ 1 → M.weight ≠ 1 →
      cuspidal_submodule M = { cls := CuspidalClass.g1_Q, ambient := M }) := by
  refine ⟨?_, ?_, ?_⟩ <;> intros <;>
    simp [cuspidal_submodule, hM, g1_cuspidal_submodule, *]

/-- Witness for C3: `Gamma1(17)` at weight 2 has level 17 and weight 2, so the
`Gamma1`-specific cuspidal implementation is selected. -/
theorem g1_cuspidal_submodule_cases_witness :
    cuspidal_submodule Mg1_17
      = { cls := CuspidalClass.g1_Q, ambient := Mg1_17 } :=
  (g1_cuspidal_submodule_cases Mg1_17 rfl).2.2 (by decide) (by decide)

/-- C4: `eisenstein_submodule()` performs no dispatch on weight or level: a
`GammaH` space always gets `EisensteinSubmodule_gH_Q` and a `Gamma1` space
always gets `EisensteinSubmodule_g1_Q`, each constructed from the space
itself. -/
theorem eisenstein_submodule_no_dispatch (M : AmbientSpace) :
    (M.cls = AmbientClass.gH_Q →
      eisenstein_submodule M = { cls := EisensteinClass.gH_Q, ambient := M })
    ∧ (M.cls = AmbientClass.g1_Q →
      eisenstein_submodule M = { cls := EisensteinClass.g1_Q, ambient := M }) := by
  refine ⟨?_, ?_⟩ <;> intro h <;>
    simp [eisenstein_submodule, h, gH_eisenstein_submodule,
      g1_eisenstein_submodule]

/-- Witness for C4 at the concrete `GammaH(100, [29])` and `Gamma1(17)`
fixtures. -/
theorem eisenstein_submodule_no_dispatch_witness :
    eisenstein_submodule MgH100
      = { cls := EisensteinClass.gH_Q, ambient := MgH100 }
    ∧ eisenstein_submodule Mg1_17
      = { cls := EisensteinClass.g1_Q, ambient := Mg1_17 } :=
  ⟨(eisenstein_submodule_no_dispatch MgH100).1 rfl,
   (eisenstein_submodule_no_dispatch Mg1_17).2 rfl⟩

/-- C5: for every ambient space the cuspidal dimension plus the Eisenstein
dimension equals the ambient dimension; consequently, when the delegated
operator matrices are square of their submodule's dimension, the assembled
operator matrices have exactly the ambient dimension as their size. -/
theorem dimension_sum (denv : DimensionEnv) (env : OperatorEnv)
    (M : AmbientSpace) (d : ℤ) (n : ℕ) :
    (denv.cusp_dimension (cuspidal_submodule M)
        + denv.eis_dimension (eisenstein_submodule M)
      = ambient_dimension denv M)
    ∧ ((cusp_diamond_mat env M d).size
          = denv.cusp_dimension (cuspidal_submodule M) →
        (eis_diamond_mat env M d).size
          = denv.eis_dimension (eisenstein_submodule M) →
        (compute_diamond_matrix env M d).size = ambient_dimension denv M)
    ∧ ((cusp_hecke_mat env M n).size
          = denv.cusp_dimension (cuspidal_submodule M) →
        (eis_hecke_mat env M n).size
          = denv.eis_dimension (eisenstein_submodule M) →
        (compute_hecke_matrix env M n).size = ambient_dimension denv M) := by
  refine ⟨rfl, ?_, ?_⟩ <;> intro h1 h2 <;>
    simp [compute_diamond_matrix, compute_hecke_matrix, QMatrix.block_sum,
      ambient_dimension, cusp_diamond_mat, eis_diamond_mat, cusp_hecke_mat,
      eis_hecke_mat] at h1 h2 ⊢ <;> omega

/-- Witness for C5 at concrete environments where both submodules have
dimension 1 and the delegated matrices are 1x1. -/
theorem dimension_sum_witness :
    (compute_diamond_matrix env0 MgH9 2).size = ambient_dimension denv0 MgH9
    ∧ (compute_hecke_matrix env0 MgH9 3).size = ambient_dimension denv0 MgH9 :=
  ⟨(dimension_sum denv0 env0 MgH9 2 3).2.1 rfl rfl,
   (dimension_sum denv0 env0 MgH9 2 3).2.2 rfl rfl⟩

/-- C6: `ModularFormsAmbient_g1_Q` does not override `_compute_diamond_matrix`
or `_compute_hecke_matrix`: on every `Gamma1` ambient space and for every
operator index, method resolution produces exactly the inherited `GammaH`
definitions applied to that space. -/
theorem g1_inherits_operator_matrices (env : OperatorEnv) (M : AmbientSpace)
    (d : ℤ) (n : ℕ) (h : M.cls = AmbientClass.g1_Q) :
    dispatch_compute_diamond_matrix env M d = compute_diamond_matrix env M d
    ∧ dispatch_compute_hecke_matrix env M n = compute_hecke_matrix env M n := by
  refine ⟨?_, ?_⟩ <;>
    simp [dispatch_compute_diamond_matrix, dispatch_compute_hecke_matrix, h]

/-- Witness for C6 at the `Gamma1(17)` fixture and the concrete environment. -/
theorem g1_inherits_operator_matrices_witness :
    dispatch_compute_diamond_matrix env0 Mg1_17 2
      = compute_diamond_matrix env0 Mg1_17 2
    ∧ dispatch_compute_hecke_matrix env0 Mg1_17 3
      = compute_hecke_matrix env0 Mg1_17 3 :=
  g1_inherits_operator_matrices env0 Mg1_17 2 3 rfl

/-- C7: constructing a `Gamma1` ambient space from an integer level, weight and
eis_only flag produces a space whose group is the wrapped `Gamma1(level)`
subgroup and whose base-constructor state coincides with what the parent
`GammaH` constructor installs when handed `Gamma1(level)` with the same weight
and flag. -/
theorem g1_init_delegates (N w : ℕ) (e : Bool) :
    (ModularFormsAmbient_g1_Q_init N w e).state.group = Gamma1 N
    ∧ (ModularFormsAmbient_g1_Q_init N w e).state
        = (ModularFormsAmbient_gH_Q_init (Gamma1 N) w e).state :=
  ⟨rfl, rfl⟩

/-- C8: on every ambient-space instance, a call served from the memo cell
returns exactly the stored object and leaves the cache untouched, and a second
call after any first call returns the first call's value and state, so the
submodules are computed at most once and never recomputed or mutated. -/
theorem submodule_caching (M : AmbientSpace) (c : AmbientCache)
    (S : CuspidalSubmodule) (E : EisensteinSubmodule) :
    (cuspidal_submodule_cached M (cuspidal_submodule_cached M c).2
        = cuspidal_submodule_cached M c)
    ∧ (eisenstein_submodule_cached M (eisenstein_submodule_cached M c).2
        = eisenstein_submodule_cached M c)
    ∧ (c.cusp = some S → cuspidal_submodule_cached M c = (S, c))
    ∧ (c.eis = some E → eisenstein_submodule_cached M c = (E, c)) := by
  refine ⟨?_, ?_, ?_, ?_⟩
  · cases hc : c.cusp <;> simp [cuspidal_submodule_cached, hc]
  · cases he : c.eis <;> simp [eisenstein_submodule_cached, he]
  · intro h
    simp [cuspidal_submodule_cached, h]
  · intro h
    simp [eisenstein_submodule_cached, h]

/-- Witness for C8: with the `GammaH(100, [29])` fixture's submodules already
stored, each cached call returns the stored object and the unchanged cache. -/
theorem submodule_caching_witness :
    cuspidal_submodule_cached MgH100
        { cusp := some (cuspidal_submodule MgH100)
          eis := some (eisenstein_submodule MgH100) }
      = (cuspidal_submodule MgH100,
         { cusp := some (cuspidal_submodule MgH100)
           eis := some (eisenstein_submodule MgH100) })
    ∧ eisenstein_submodule_cached MgH100
        { cusp := some (cuspidal_submodule MgH100)
          eis := some (eisenstein_submodule MgH100) }
      = (eisenstein_submodule MgH100,
         { cusp := some (cuspidal_submodule MgH100)
           eis := some (eisenstein_submodule MgH100) }) :=
  ⟨(submodule_caching MgH100 _ (cuspidal_submodule MgH100)
      (eisenstein_submodule MgH100)).2.2.1 rfl,
   (submodule_caching MgH100 _ (cuspidal_submodule MgH100)
      (eisenstein_submodule MgH100)).2.2.2 rfl⟩

/-- Monadic bind on `Except` propagates an error unchanged. -/
theorem except_bind_error {ε α β : Type} (e : ε) (f : α → Except ε β) :
    ((Except.error e : Except ε α) >>= f) = Except.error e := rfl

/-- Monadic bind on `Except` feeds a success into the continuation. -/
theorem except_bind_ok {ε α β : Type} (a : α) (f : α → Except ε β) :
    ((Except.ok a : Except ε α) >>= f) = f a := rfl

/-- Mapping over an `Except` error leaves the error unchanged. -/
theorem except_map_error {ε α β : Type} (g : α → β) (e : ε) :
    (g <$> (Except.error e : Except ε α)) = Except.error e := rfl

/-- Mapping over an `Except` success applies the function. -/
theorem except_map_ok {ε α β : Type} (g : α → β) (a : α) :
    (g <$> (Except.ok a : Except ε α)) = Except.ok (g a) := rfl

/-- C9: the layer adds no error handling: whichever delegated step of
`_compute_diamond_matrix` or `_compute_hecke_matrix` raises first — the
cuspidal submodule construction, its operator matrix, the Eisenstein submodule
construction, or its operator matrix — that same error is the result, and the
computation succeeds with the block sum exactly when every delegated step
succeeds. -/
theorem error_propagation {ε : Type} (fe : FallibleEnv ε) (M : AmbientSpace)
    (d : ℤ) (n : ℕ) (e : ε) (S : CuspidalSubmodule) (E : EisensteinSubmodule)
    (A B : QMatrix) :
    (cuspidal_submoduleE fe M = Except.error e →
      compute_diamond_matrixE fe M d = Except.error e
      ∧ compute_hecke_matrixE fe M n = Except.error e)
    ∧ (cuspidal_submoduleE fe M = Except.ok S →
        fe.cusp_diamond S d = Except.error e →
        compute_diamond_matrixE fe M d = Except.error e)
    ∧ (cuspidal_submoduleE fe M = Except.ok S →
        fe.cusp_diamond S d = Except.ok A →
        eisenstein_submoduleE fe M = Except.error e →
        compute_diamond_matrixE fe M d = Except.error e)
    ∧ (cuspidal_submoduleE fe M = Except.ok S →
        fe.cusp_diamond S d = Except.ok A →
        eisenstein_submoduleE fe M = Except.ok E →
        fe.eis_diamond E d = Except.error e →
        compute_diamond_matrixE fe M d = Except.error e)
    ∧ (cuspidal_submoduleE fe M = Except.ok S →
        fe.cusp_diamond S d = Except.ok A →
        eisenstein_submoduleE fe M = Except.ok E →
        fe.eis_diamond E d = Except.ok B →
        compute_diamond_matrixE fe M d = Except.ok (A.block_sum B))
    ∧ (cuspidal_submoduleE fe M = Except.ok S →
        fe.cusp_hecke S n = Except.error e →
        compute_hecke_matrixE fe M n = Except.error e)
    ∧ (cuspidal_submoduleE fe M = Except.ok S →
        fe.cusp_hecke S n = Except.ok A →
        eisenstein_submoduleE fe M = Except.error e →
        compute_hecke_matrixE fe M n = Except.error e)
    ∧ (cuspidal_submoduleE fe M = Except.ok S →
        fe.cusp_hecke S n = Except.ok A →
        eisenstein_submoduleE fe M = Except.ok E →
        fe.eis_hecke E n = Except.error e →
        compute_hecke_matrixE fe M n = Except.error e)
    ∧ (cuspidal_submoduleE fe M = Except.ok S →
        fe.cusp_hecke S n = Except.ok A →
        eisenstein_submoduleE fe M = Except.ok E →
        fe.eis_hecke E n = Except.ok B →
        compute_hecke_matrixE fe M n = Except.ok (A.block_sum B)) := by
  refine ⟨?_, ?_, ?_, ?_, ?_, ?_, ?_, ?_, ?_⟩ <;> intros <;>
    simp_all [compute_diamond_matrixE, compute_hecke_matrixE,
      except_bind_error, except_bind_ok, except_map_error, except_map_ok]

/-- Fixture: a concrete 1x1 matrix. -/
def QA : QMatrix :=
  { size := 1, entry := fun _ _ => 3 }

/-- Fixture: another concrete 1x1 matrix. -/
def QB : QMatrix :=
  { size := 1, entry := fun _ _ => 5 }

/-- Fixture: a fallible environment whose submodule constructors raise. -/
def feFail : FallibleEnv ℕ where
  mk_cusp := fun _ _ => Except.error 7
  mk_eis := fun _ _ => Except.error 8
  cusp_diamond := fun _ _ => Except.error 9
  eis_diamond := fun _ _ => Except.error 10
  cusp_hecke := fun _ _ => Except.error 11
  eis_hecke := fun _ _ => Except.error 12

/-- Fixture: a fallible environment in which every delegated call succeeds. -/
def feOk : FallibleEnv ℕ where
  mk_cusp := fun k M => Except.ok { cls := k, ambient := M }
  mk_eis := fun k M => Except.ok { cls := k, ambient := M }
  cusp_diamond := fun _ _ => Except.ok QA
  eis_diamond := fun _ _ => Except.ok QB
  cusp_hecke := fun _ _ => Except.ok QA
  eis_hecke := fun _ _ => Except.ok QB

/-- Witness for C9 at the `Gamma1(17)` fixture: when the cuspidal constructor
raises error 7, both operator computations report error 7 unchanged; when every
delegated call succeeds, the diamond computation returns the block sum. -/
theorem error_propagation_witness :
    compute_diamond_matrixE feFail Mg1_17 2 = Except.error 7
    ∧ compute_hecke_matrixE feFail Mg1_17 3 = Except.error 7
    ∧ compute_diamond_matrixE feOk Mg1_17 2 = Except.ok (QA.block_sum QB) :=
  ⟨((error_propagation feFail Mg1_17 2 3 7
      { cls := CuspidalClass.g1_Q, ambient := Mg1_17 }
      { cls := EisensteinClass.g1_Q, ambient := Mg1_17 } QA QB).1 rfl).1,
   ((error_propagation feFail Mg1_17 2 3 7
      { cls := CuspidalClass.g1_Q, ambient := Mg1_17 }
      { cls := EisensteinClass.g1_Q, ambient := Mg1_17 } QA QB).1 rfl).2,
   (error_propagation feOk Mg1_17 2 3 7
      { cls := CuspidalClass.g1_Q, ambient := Mg1_17 }
      { cls := EisensteinClass.g1_Q, ambient := Mg1_17 } QA QB).2.2.2.2.1
      rfl rfl rfl rfl⟩

/-- C10: in the cuspidal dispatch of both classes, the level-1 test precedes
the weight-1 test: a level-1 weight-1 space gets `CuspidalSubmodule_level1_Q`
from either method body, and when the weight-1 branch is reached both bodies
select the same `CuspidalSubmodule_wt1_gH` implementation. -/
theorem level1_beats_weight1 (M : AmbientSpace) :
    (M.level = 1 → M.weight = 1 →
      gH_cuspidal_submodule M
          = { cls := CuspidalClass.level1_Q, ambient := M }
        ∧ g1_cuspidal_submodule M
          = { cls := CuspidalClass.level1_Q, ambient := M })
    ∧ (M.level ≠ 1 → M.weight = 1 →
      gH_cuspidal_submodule M
          = { cls := CuspidalClass.wt1_gH, ambient := M }
        ∧ g1_cuspidal_submodule M
          = { cls := CuspidalClass.wt1_gH, ambient := M }) := by
  refine ⟨?_, ?_⟩ <;> intro h1 h2 <;>
    simp [gH_cuspidal_submodule, g1_cuspidal_submodule, h1, h2]

/-- Witness for C10 at a level-1 weight-1 space and a level-5 weight-1
space. -/
theorem level1_beats_weight1_witness :
    (gH_cuspidal_submodule MgH1
        = { cls := CuspidalClass.level1_Q, ambient := MgH1 }
      ∧ g1_cuspidal_submodule MgH1
        = { cls := CuspidalClass.level1_Q, ambient := MgH1 })
    ∧ (gH_cuspidal_submodule MgH5
        = { cls := CuspidalClass.wt1_gH, ambient := MgH5 }
      ∧ g1_cuspidal_submodule MgH5
        = { cls := CuspidalClass.wt1_gH, ambient := MgH5 }) :=
  ⟨(level1_beats_weight1 MgH1).1 rfl rfl,
   (level1_beats_weight1 MgH5).2 (by decide) rfl⟩

end AmbientG1
